import Mathlib

/-!
Shallow embedding of the quota-aware YouTube search tool in `src/main.py`.

Conventions used throughout this development:
* instants (`datetime` values) are modelled as `Int` numbers of seconds, so
  `timedelta(days = d)` is `d * 86400` seconds and `delta.days` /
  `delta.seconds` of a non-negative delta are `delta / 86400` and
  `delta % 86400`;
* Python dicts keyed by strings are modelled as association lists;
* the metered YouTube client is modelled as a deterministic oracle
  (`SearchApi`): the query parameters that stay fixed during one logical
  request (query text, publishedAfter, regionCode, relevanceLanguage) are
  folded into the oracle, while the arguments the loop varies (page token,
  channel scope, maxResults) are explicit;
* Python `round` applied to the exact quotient `views / total_hours` is
  modelled as exact rational rounding half to even (`pyRound`).
-/

namespace FindKing

/-- Rounding half to even of the rational `num / den`, modelling the Python
builtin `round` applied to the exact quotient (`den` is always positive at
every call site). -/
def pyRound (num den : Nat) : Nat :=
  let q := num / den
  let r := num % den
  if 2 * r < den then q
  else if den < 2 * r then q + 1
  else if q % 2 = 0 then q else q + 1

/-- Embedding of `human_elapsed_days_hours` (src/main.py lines 251-257):
the pair `(delta.days, delta.seconds // 3600)` of the difference
`later - earlier`, clamped to `(0, 0)` when the difference is negative.
Instants are seconds, so `delta.days = delta / 86400` and
`delta.seconds = delta % 86400` for the non-negative case. -/
def human_elapsed_days_hours (later earlier : Int) : Int × Int :=
  let delta := later - earlier
  if delta < 0 then (0, 0)
  else (delta / 86400, delta % 86400 / 3600)

/-- Embedding of the clicks-per-hour computation of the general-search row
construction (src/main.py lines 863-866):
`total_hours = max(1, d*24 + h)` and `cph = int(round(views / total_hours))`. -/
def row_cph (search_dt pub_kst : Int) (views : Nat) : Nat :=
  let dh := human_elapsed_days_hours search_dt pub_kst
  let total_hours := max 1 (dh.1 * 24 + dh.2)
  pyRound views total_hours.toNat

/-- Embedding of `calc_grade` (src/main.py lines 318-327): the chain of
lower-bound tests mapping a clicks-per-hour value to a letter grade. -/
def calc_grade (clicks_per_hour : Int) : String :=
  let v := clicks_per_hour
  if v ≥ 5000 then "A"
  else if v ≥ 2000 then "B"
  else if v ≥ 1000 then "C"
  else if v ≥ 500 then "D"
  else if v ≥ 300 then "E"
  else if v ≥ 100 then "F"
  else if v ≥ 50 then "G"
  else "H"

/-- Threshold table of `calc_grade` written as data, in source order. -/
def gradeThresholds : List (Int × String) :=
  [(5000, "A"), (2000, "B"), (1000, "C"), (500, "D"), (300, "E"), (100, "F"), (50, "G")]

/-- Modelled from the spec: an ordered list of `(lowerBound, symbol)` pairs
evaluated top-down, first match wins, with the sentinel lowest grade "H"
when no bound is met. Used to compare `calc_grade` against the shape the
specification describes. -/
def gradeFromTable : List (Int × String) → Int → String
  | [], _ => "H"
  | (bound, sym) :: rest, v => if v ≥ bound then sym else gradeFromTable rest v

/-- Test whether the second character list starts with the first, modelling
the Python method startswith on the underlying characters (written here
structurally so that the kernel can evaluate it). -/
def leadsWith : List Char → List Char → Bool
  | [], _ => true
  | _ :: _, [] => false
  | p :: ps, c :: cs => p == c && leadsWith ps cs

/-- Replacement of every occurrence of the single character `c` by `rep`,
modelling the Python method replace for the one-character patterns used in
the source. -/
def replaceCharList (c : Char) (rep : List Char) : List Char → List Char
  | [] => []
  | ch :: rest => (if ch == c then rep else [ch]) ++ replaceCharList c rep rest

/-- Value of a run of decimal digit characters, accumulator style,
modelling the Python builtin int on a digit string. -/
def py_int_digits : List Char → Nat → Nat
  | [], acc => acc
  | c :: cs, acc => py_int_digits cs (acc * 10 + (c.toNat - 48))

/-- Parse of an optionally negated decimal digit string, modelling the
Python builtin int together with the surrounding try/except (`none` plays
the role of the raised ValueError).  The source only ever feeds it strings
drawn from fixed UI label lists. -/
def py_int? (s : List Char) : Option Int :=
  match s with
  | [] => none
  | '-' :: ds =>
    if ds ≠ [] ∧ ds.all Char.isDigit then some (-(py_int_digits ds 0 : Int)) else none
  | ds =>
    if ds.all Char.isDigit then some (py_int_digits ds 0 : Int) else none

/-- Loop body of `parse_duration_iso8601` (src/main.py lines 275-285):
walks the characters after "PT", accumulating digit runs in `num` and
committing the run to hours, minutes or seconds on the markers H, M, S
(only when the run is non-empty); any other character leaves the state
unchanged. -/
def parse_duration_core : List Char → Nat → Nat → Nat → List Char → Nat
  | [], h, m, s, _ => h * 3600 + m * 60 + s
  | ch :: rest, h, m, s, num =>
    if ch.isDigit then
      parse_duration_core rest h m s (num ++ [ch])
    else if ch = 'H' ∧ num ≠ [] then
      parse_duration_core rest (py_int_digits num 0) m s []
    else if ch = 'M' ∧ num ≠ [] then
      parse_duration_core rest h (py_int_digits num 0) s []
    else if ch = 'S' ∧ num ≠ [] then
      parse_duration_core rest h m (py_int_digits num 0) []
    else
      parse_duration_core rest h m s num

/-- Embedding of `parse_duration_iso8601` (src/main.py lines 271-286). -/
def parse_duration_iso8601 (iso_dur : String) : Nat :=
  if iso_dur.data = [] ∨ leadsWith "PT".data iso_dur.data = false then 0
  else parse_duration_core (iso_dur.data.drop 2) 0 0 0 []

/-- Two-digit zero padding, modelling the Python format directive 02d for
values below 100 (minutes and seconds are below 60 at every call site). -/
def pad2 (n : Nat) : String :=
  if n < 10 then "0" ++ toString n else toString n

/-- Embedding of `format_duration_hms` (src/main.py lines 288-296). -/
def format_duration_hms (seconds : Int) : String :=
  if seconds ≤ 0 then "0:00"
  else
    let n := seconds.toNat
    let h := n / 3600
    let m := n % 3600 / 60
    let s := n % 60
    if h > 0 then toString h ++ ":" ++ pad2 m ++ ":" ++ pad2 s
    else toString m ++ ":" ++ pad2 s

/-- Embedding of `duration_filter_ok` (src/main.py lines 298-306). -/
def duration_filter_ok (seconds : Nat) (label : String) : Bool :=
  if label = "전체" then true
  else if label = "쇼츠" then decide (seconds < 60)
  else if label = "롱폼" then decide (60 ≤ seconds)
  else if label = "1~20분" then decide (60 ≤ seconds) && decide (seconds < 20 * 60)
  else if label = "20~40분" then decide (20 * 60 ≤ seconds) && decide (seconds < 40 * 60)
  else if label = "40~60분" then decide (40 * 60 ≤ seconds) && decide (seconds < 60 * 60)
  else if label = "60분이상" then decide (60 * 60 ≤ seconds)
  else true

/-- Embedding of `parse_min_views` (src/main.py lines 308-313): strips
commas and spaces, expands the character 만 to "0000", then parses an
integer, defaulting to 0 when unparseable. -/
def parse_min_views (text : String) : Int :=
  let digits :=
    replaceCharList '만' "0000".data (replaceCharList ' ' [] (replaceCharList ',' [] text.data))
  (py_int? digits).getD 0

/-- One row of the result DataFrame built by the general-search row
construction (src/main.py lines 867-878); field order and content follow
the dict literal there.  The upload instant is in seconds. -/
structure DfRow where
  grade : String
  thumbnail : String
  channelName : String
  views : Int
  cph : Int
  durationText : String
  uploadTime : Int
  elapsedText : String
  title : String
  url : String
deriving DecidableEq

/-- Embedding of `apply_client_filters` (src/main.py lines 809-817): when an
upload window is selected, keep rows uploaded at or after
`now - days * 86400`; then keep rows with at least `parse_min_views`
views.  The rows of this embedding always carry the two columns the source
guards on. -/
def apply_client_filters (df : List DfRow) (upload_period min_views_label : String)
    (now : Int) : List DfRow :=
  let df1 :=
    if upload_period ≠ "제한없음" then
      let days := (py_int? (replaceCharList '일' [] upload_period.data)).getD 0
      let cutoff := now - days * 86400
      df.filter (fun r => decide (cutoff ≤ r.uploadTime))
    else df
  let min_views := parse_min_views min_views_label
  df1.filter (fun r => decide (min_views ≤ r.views))

/-- One stored entry of the keyword log: the fields `ts` and `q` of the
JSON object, `none` when the key is missing. -/
structure KeywordEntry where
  ts : Option String
  q : Option String

/-- Python truthiness of an optional string: `none` and the empty string
are falsy. -/
def truthyStr : Option String → Option String
  | none => none
  | some s => if s = "" then none else some s

/-- Body of the accumulation loop of `get_recent_keywords` (src/main.py
lines 229-240): skip entries with a falsy `ts` or `q`, attempt to parse
the timestamp via the oracle `parseTs` (modelling
`datetime.fromisoformat`, `none` on a raised exception, with the timezone
normalisation folded into the oracle); successful entries become a
`(timestamp, query)` pair. -/
def parse_log_entry (parseTs : String → Option Int) (item : KeywordEntry) :
    Option (Int × String) :=
  match truthyStr item.ts, truthyStr item.q with
  | some ts, some q =>
    match parseTs ts with
    | some dt => some (dt, q)
    | none => none
  | _, _ => none

/-- Embedding of `get_recent_keywords` (src/main.py lines 226-242): collect
the parseable entries, sort them by timestamp descending (Python uses a
stable sort with `reverse=True`, modelled by a stable merge sort under the
flipped order) and truncate to `limit`. -/
def get_recent_keywords (parseTs : String → Option Int) (entries : List KeywordEntry)
    (limit : Nat) : List (Int × String) :=
  let out := entries.filterMap (parse_log_entry parseTs)
  (out.mergeSort (fun a b => decide (b.1 ≤ a.1))).take limit

/-- Lookup with default 0, modelling `data.get(key, 0)` on the quota dict. -/
def mapGet (data : List (String × Int)) (key : String) : Int :=
  match data.find? (fun p => p.1 == key) with
  | some p => p.2
  | none => 0

/-- Update or insert, modelling `data[key] = v` on the quota dict. -/
def mapSet (data : List (String × Int)) (key : String) (v : Int) : List (String × Int) :=
  match data with
  | [] => [(key, v)]
  | p :: rest => if p.1 == key then (key, v) :: rest else p :: mapSet rest key v

/-- Embedding of `get_today_quota_total` (src/main.py lines 196-198); the
loaded quota map and the key of today are explicit arguments. -/
def get_today_quota_total (data : List (String × Int)) (today : String) : Int :=
  mapGet data today

/-- Embedding of `add_quota_usage` (src/main.py lines 200-206): a no-op for
`units ≤ 0`, otherwise adds `units` to the entry of today, creating it
from 0 when absent. -/
def add_quota_usage (data : List (String × Int)) (today : String) (units : Int) :
    List (String × Int) :=
  if units ≤ 0 then data
  else mapSet data today (mapGet data today + units)

/-- One item of a `videos().list` response, already projected to the fields
the source reads (src/main.py lines 394-415). -/
structure VideoItem where
  vid : String
  title : String
  publishedAtIso : String
  viewCount : Nat
  durationIso : String
  channelTitle : String
  thumbnailUrl : String

/-- One entry of `results_tmp` (src/main.py lines 422-430). -/
structure RawResult where
  title : String
  views : Nat
  published_at_iso : String
  url : String
  duration_sec : Nat
  channel_title : String
  thumbnail_url : String
deriving DecidableEq

/-- Cost breakdown dict of the search functions: units spent on
`search.list` and on `videos.list`. -/
structure Breakdown where
  searchList : Nat
  videosList : Nat
deriving DecidableEq

/-- Deterministic oracle for the metered YouTube client.  `channelSearch`
models the channel-resolution search (maxResults=1, returning channel
ids); `searchPage scope token take` models one `search().list` page call
(scope is the channel id for channel-scoped search, `none` for general
search) returning the video ids and the optional `nextPageToken`;
`videosList` models one batched `videos().list` call. -/
structure SearchApi where
  channelSearch : String → List String
  searchPage : Option String → Option String → Nat → List String × Option String
  videosList : List String → List VideoItem

/-- Per-item parsing and server-side (stage 1) filtering of the fetch loop
(src/main.py lines 394-430): drop the item when its view count is below
`min_views` or its parsed duration fails the duration bucket, otherwise
build the `results_tmp` entry. -/
def make_raw_result (min_views : Nat) (duration_label : String) (item : VideoItem) :
    Option RawResult :=
  let duration_sec := parse_duration_iso8601 item.durationIso
  if item.viewCount < min_views then none
  else if ¬ duration_filter_ok duration_sec duration_label then none
  else some ⟨item.title, item.viewCount, item.publishedAtIso,
    "https://www.youtube.com/watch?v=" ++ item.vid,
    duration_sec, item.channelTitle, item.thumbnailUrl⟩

/-- Result of one fetch: the accumulated records, `cost_used`, the cost
breakdown, and (recorded for specification purposes) the `maxResults`
argument of every `search().list` page call the loop issued. -/
structure FetchResult where
  results : List RawResult
  cost : Nat
  breakdown : Breakdown
  takes : List Nat

/-- Embedding of the shared page loop of `search_videos` (src/main.py lines
353-437) and `search_videos_in_channel_by_name` (lines 557-641): while
`fetched < max_fetch`, request `take = min(50, max_fetch - fetched)` items
(cost 100), stop on an empty id page, otherwise look the ids up in one
`videos.list` call (cost 1), accumulate the filtered rows, advance
`fetched` by the page size, and continue while a next-page token exists. -/
def fetch_loop (api : SearchApi) (scope : Option String) (min_views : Nat)
    (duration_label : String) (max_fetch fetched : Nat) (next_token : Option String)
    (acc : List RawResult) (cost : Nat) (bd : Breakdown) (takes : List Nat) :
    FetchResult :=
  if h : fetched < max_fetch then
    let take := min 50 (max_fetch - fetched)
    let page := api.searchPage scope next_token take
    let cost1 := cost + 100
    let bd1 : Breakdown := ⟨bd.searchList + 100, bd.videosList⟩
    let takes1 := takes ++ [take]
    if hpage : page.1 = [] then ⟨acc, cost1, bd1, takes1⟩
    else
      let items := api.videosList page.1
      let cost2 := cost1 + 1
      let bd2 : Breakdown := ⟨bd1.searchList, bd1.videosList + 1⟩
      let acc2 := acc ++ items.filterMap (make_raw_result min_views duration_label)
      let fetched2 := fetched + page.1.length
      match page.2 with
      | none => ⟨acc2, cost2, bd2, takes1⟩
      | some t =>
        fetch_loop api scope min_views duration_label max_fetch fetched2 (some t)
          acc2 cost2 bd2 takes1
  else ⟨acc, cost, bd, takes⟩
termination_by max_fetch - fetched
decreasing_by
  simp_wf
  have hlen : 0 < (api.searchPage scope next_token (50 ⊓ (max_fetch - fetched))).1.length :=
    List.length_pos.mpr hpage
  omega

/-- Clamping of the caller-supplied fetch ceiling, embedding
`max(1, min(int(max_fetch or 100), 5000))` (src/main.py lines 347 and
552); a falsy ceiling (`None` or 0) is replaced by 100. -/
def clamp_fetch (max_fetch : Option Int) : Nat :=
  let v : Int := match max_fetch with
    | none => 100
    | some x => if x = 0 then 100 else x
  (max 1 (min v 5000)).toNat

/-- Embedding of `search_videos` (src/main.py lines 332-437), restricted to
its quota and pagination behaviour; the fixed query parameters live inside
the oracle. -/
def search_videos (api : SearchApi) (min_views : Nat) (duration_label : String)
    (max_fetch : Option Int) : FetchResult :=
  let mf := clamp_fetch max_fetch
  fetch_loop api none min_views duration_label mf 0 none [] 0 ⟨0, 0⟩ []

/-- Embedding of `search_videos_in_channel_by_name` (src/main.py lines
512-641): one channel-resolution search (cost 100), an empty result when
no channel matches, otherwise the shared page loop scoped to the first
resolved channel id. -/
def search_videos_in_channel_by_name (api : SearchApi) (channel_name : String)
    (min_views : Nat) (duration_label : String) (max_fetch : Option Int) :
    FetchResult :=
  let cost := 100
  let bd : Breakdown := ⟨100, 0⟩
  let items := api.channelSearch channel_name
  if hitems : items = [] then ⟨[], cost, bd, []⟩
  else
    let channel_id := items.head hitems
    let mf := clamp_fetch max_fetch
    fetch_loop api (some channel_id) min_views duration_label mf 0 none [] cost bd []

end FindKing

namespace FindKing

lemma hedh_eq (later earlier : Int) :
    human_elapsed_days_hours later earlier =
      if later - earlier < 0 then (0, 0)
      else ((later - earlier) / 86400, (later - earlier) % 86400 / 3600) := rfl

/-- C1: for every video record the derived clicks-per-hour metric equals
round(viewCount / max(1, elapsedDays*24 + elapsedHours)); the elapsed days
and hours are computed against the fetch instant and are both
non-negative, clamping to (0, 0) when publication is after the fetch
instant; the divisor is at least 1, so the metric is defined even when
both elapsed components are 0, and it is non-negative. -/
theorem C1_clicks_per_hour_formula (search_dt pub_kst : Int) (views : Nat) :
    0 ≤ (human_elapsed_days_hours search_dt pub_kst).1 ∧
    0 ≤ (human_elapsed_days_hours search_dt pub_kst).2 ∧
    (search_dt < pub_kst → human_elapsed_days_hours search_dt pub_kst = (0, 0)) ∧
    1 ≤ max 1 ((human_elapsed_days_hours search_dt pub_kst).1 * 24 +
      (human_elapsed_days_hours search_dt pub_kst).2) ∧
    row_cph search_dt pub_kst views =
      pyRound views (max 1 ((human_elapsed_days_hours search_dt pub_kst).1 * 24 +
        (human_elapsed_days_hours search_dt pub_kst).2)).toNat ∧
    0 ≤ row_cph search_dt pub_kst views := by
  refine ⟨?_, ?_, ?_, le_max_left 1 _, rfl, Nat.zero_le _⟩
  · rw [hedh_eq]
    split_ifs with hd
    · simp
    · exact Int.ediv_nonneg (by omega) (by norm_num)
  · rw [hedh_eq]
    split_ifs with hd
    · simp
    · exact Int.ediv_nonneg (Int.emod_nonneg _ (by norm_num)) (by norm_num)
  · intro hlt
    rw [hedh_eq, if_pos (by omega)]

/-- Witness for C1 at a concrete input: a video published one hour after
the fetch instant clamps to elapsed (0, 0), and the metric is
non-negative. -/
theorem C1_witness :
    human_elapsed_days_hours 0 3600 = (0, 0) ∧ 0 ≤ row_cph 0 3600 500 :=
  ⟨(C1_clicks_per_hour_formula 0 3600 500).2.2.1 (by decide),
   (C1_clicks_per_hour_formula 0 3600 500).2.2.2.2.2⟩

/-- C2: grade assignment is total: every integer clicks-per-hour value
(including 0 and negative values) maps to exactly one symbol of
A, B, C, D, E, F, G, H, and the chain of tests agrees with evaluating the
ordered list of lower-bound thresholds top-down, first match wins, with
the sentinel lowest grade H when no bound is met. -/
theorem C2_grade_total (v : Int) :
    calc_grade v ∈ ["A", "B", "C", "D", "E", "F", "G", "H"] ∧
    calc_grade v = gradeFromTable gradeThresholds v := by
  constructor
  · simp only [calc_grade]
    split_ifs <;> simp
  · simp only [calc_grade, gradeThresholds, gradeFromTable]

lemma mapGet_mapSet (data : List (String × Int)) (key : String) (v : Int) :
    mapGet (mapSet data key v) key = v := by
  induction data with
  | nil => simp [mapSet, mapGet]
  | cons p rest ih =>
    simp only [mapSet]
    by_cases h : (p.1 == key) = true
    · rw [if_pos h]
      simp [mapGet]
    · rw [if_neg h]
      simpa [mapGet, List.find?, h] using ih

lemma quota_add_pos_total (data : List (String × Int)) (today : String) (units : Int)
    (h : 0 < units) :
    get_today_quota_total (add_quota_usage data today units) today =
      get_today_quota_total data today + units := by
  unfold add_quota_usage get_today_quota_total
  rw [if_neg (by omega)]
  exact mapGet_mapSet data today (mapGet data today + units)

/-- C5: `add_quota_usage` is a no-op for non-positive unit counts (the
quota map is unchanged, hence so is the total of today), and for positive
unit counts it adds the units to the entry of today, creating it from 0
when absent. -/
theorem C5_add_usage_nonpositive_noop (data : List (String × Int)) (today : String)
    (units : Int) :
    (units ≤ 0 → add_quota_usage data today units = data ∧
      get_today_quota_total (add_quota_usage data today units) today =
        get_today_quota_total data today) ∧
    (0 < units → get_today_quota_total (add_quota_usage data today units) today =
      get_today_quota_total data today + units) := by
  constructor
  · intro h
    have hnoop : add_quota_usage data today units = data := by
      unfold add_quota_usage
      rw [if_pos h]
    exact ⟨hnoop, by rw [hnoop]⟩
  · intro h
    exact quota_add_pos_total data today units h

/-- Witness for C5: addUsage(-5) and addUsage(0) leave a concrete quota
map untouched, and addUsage(102) adds 102 to the total of today. -/
theorem C5_witness :
    add_quota_usage [("2026-10-12", 3)] "2026-10-12" (-5) = [("2026-10-12", 3)] ∧
    add_quota_usage [("2026-10-12", 3)] "2026-10-12" 0 = [("2026-10-12", 3)] ∧
    get_today_quota_total
        (add_quota_usage [("2026-10-12", 3)] "2026-10-12" 102) "2026-10-12" =
      get_today_quota_total [("2026-10-12", 3)] "2026-10-12" + 102 :=
  ⟨((C5_add_usage_nonpositive_noop [("2026-10-12", 3)] "2026-10-12" (-5)).1 (by norm_num)).1,
   ((C5_add_usage_nonpositive_noop [("2026-10-12", 3)] "2026-10-12" 0).1 (by norm_num)).1,
   (C5_add_usage_nonpositive_noop [("2026-10-12", 3)] "2026-10-12" 102).2 (by norm_num)⟩

lemma quota_foldl_total (today : String) :
    ∀ (l : List Int) (data : List (String × Int)), (∀ u ∈ l, 0 < u) →
      get_today_quota_total (l.foldl (fun d u => add_quota_usage d today u) data) today =
        get_today_quota_total data today + l.sum := by
  intro l
  induction l with
  | nil =>
    intro data _
    simp
  | cons u t ih =>
    intro data hpos
    rw [List.foldl_cons]
    rw [ih _ (fun x hx => hpos x (List.mem_cons_of_mem u hx))]
    rw [quota_add_pos_total data today u (hpos u (List.mem_cons_self u t))]
    rw [List.sum_cons]
    ring

/-- C6: quota accounting is additive and order-independent: from any quota
state within one day, crediting any permutation of the costs [100, 1, 1]
yields the same total of today as crediting 102 once. -/
theorem C6_quota_order_independent (data : List (String × Int)) (today : String)
    (l : List Int) (hperm : l.Perm [100, 1, 1]) :
    get_today_quota_total (l.foldl (fun d u => add_quota_usage d today u) data) today =
      get_today_quota_total (add_quota_usage data today 102) today := by
  have hpos : ∀ u ∈ l, 0 < u := by
    intro u hu
    have h2 := hperm.mem_iff.mp hu
    simp only [List.mem_cons, List.not_mem_nil, or_false] at h2
    rcases h2 with h | h | h <;> omega
  rw [quota_foldl_total today l data hpos]
  rw [quota_add_pos_total data today 102 (by norm_num)]
  have hsum : l.sum = 102 := by
    rw [hperm.sum_eq]
    norm_num
  rw [hsum]

/-- Witness for C6: crediting [1, 100, 1] to the empty quota map equals
crediting 102 once. -/
theorem C6_witness :
    get_today_quota_total
        (([1, 100, 1] : List Int).foldl (fun d u => add_quota_usage d "2026-10-12" u) [])
        "2026-10-12" =
      get_today_quota_total (add_quota_usage [] "2026-10-12" 102) "2026-10-12" :=
  C6_quota_order_independent [] "2026-10-12" [1, 100, 1] (by decide)

lemma filter_idem {α : Type} (p : α → Bool) (l : List α) :
    (l.filter p).filter p = l.filter p := by
  simp only [List.filter_filter]
  apply List.filter_congr
  intro a _
  cases p a <;> rfl

lemma filter_pair_idem {α : Type} (p q : α → Bool) (l : List α) :
    (((l.filter q).filter p).filter q).filter p = (l.filter q).filter p := by
  simp only [List.filter_filter]
  apply List.filter_congr
  intro a _
  cases p a <;> cases q a <;> rfl

/-- C7: the stage-2 client-side filter is idempotent: with the same filter
parameters (upload window, minimum-view label) and the same reference
instant, applying it to its own output yields the same list. -/
theorem C7_client_filter_idempotent (df : List DfRow) (upload_period min_views_label : String)
    (now : Int) :
    apply_client_filters (apply_client_filters df upload_period min_views_label now)
        upload_period min_views_label now =
      apply_client_filters df upload_period min_views_label now := by
  simp only [apply_client_filters]
  by_cases h : upload_period = "제한없음"
  · simp only [h, ne_eq, not_true_eq_false, if_false]
    exact filter_idem _ df
  · simp only [ne_eq, h, not_false_eq_true, if_true]
    exact filter_pair_idem _ _ df

end FindKing

namespace FindKing

/-- Concrete result row used in the stage-2 filter counterexample: grade H,
7000 views, 30-second duration, uploaded at instant 0. -/
def sampleRow : DfRow :=
  ⟨"H", "", "ch", 7000, 10, "0:30", 0, "0일 0시간", "t", "u"⟩

/-- C3 counterexample: the stage-2 client filter applies no duration-bucket
and no grade predicate.  A row from a 30-second video with grade H
survives `apply_client_filters` although it fails the duration bucket
60분이상 and fails a grade-equality filter against A, so a record does not
survive iff it satisfies all four claimed predicates. -/
theorem C3_counterexample :
    apply_client_filters [sampleRow] "제한없음" "5,000" 0 = [sampleRow] ∧
    duration_filter_ok 30 "60분이상" = false ∧
    sampleRow.grade ≠ "A" := by
  refine ⟨by decide, by decide, by decide⟩

/-- C3 (amended): the stage-2 client-side filter is a pure in-memory
predicate over the already-fetched records, but it applies only two
predicates: the upload-age cutoff (when a window is selected) and the
minimum-view threshold.  The duration-bucket and grade predicates are not
re-applied client-side (the duration bucket is enforced server-side during
fetch).  A record survives iff it satisfies both predicates. -/
theorem C3_amended_client_filter (df : List DfRow) (upload_period min_views_label : String)
    (now : Int) (r : DfRow) :
    r ∈ apply_client_filters df upload_period min_views_label now ↔
      r ∈ df ∧
      (upload_period ≠ "제한없음" →
        now - (py_int? (replaceCharList '일' [] upload_period.data)).getD 0 * 86400 ≤
          r.uploadTime) ∧
      parse_min_views min_views_label ≤ r.views := by
  simp only [apply_client_filters]
  by_cases h : upload_period = "제한없음"
  · simp [h, List.mem_filter]
  · rw [if_pos h, List.mem_filter, List.mem_filter]
    simp only [decide_eq_true_eq]
    constructor
    · rintro ⟨⟨hdf, hcut⟩, hv⟩
      exact ⟨hdf, fun _ => hcut, hv⟩
    · rintro ⟨hdf, hcut, hv⟩
      exact ⟨⟨hdf, hcut h⟩, hv⟩

/-- Witness for the amended C3 at a concrete input: a row satisfying both
remaining predicates survives the filter. -/
theorem C3_amended_witness :
    sampleRow ∈ apply_client_filters [sampleRow] "7일" "5,000" 0 :=
  (C3_amended_client_filter [sampleRow] "7일" "5,000" 0 sampleRow).mpr
    ⟨by decide, fun _ => by decide, by decide⟩

/-- Oracle timestamp parser used in the keyword-log counterexample: the
stored string "old" parses to instant 0, everything else fails to parse. -/
def fixedParse : String → Option Int := fun s => if s = "old" then some 0 else none

/-- C4 counterexample: `get_recent_keywords` applies no day-window filter.
With the clock at instant 1000000000 and any 7-day window, the single log
entry with timestamp 0 lies far before now minus the window, yet it is
returned. -/
theorem C4_counterexample :
    get_recent_keywords fixedParse [⟨some "old", some "q"⟩] 7 = [(0, "q")] ∧
    ¬ ((1000000000 : Int) - 7 * 86400 ≤ 0) := by
  constructor
  · simp [get_recent_keywords, parse_log_entry, truthyStr, fixedParse]
  · decide

/-- C4 (amended): `get_recent_keywords` returns the parseable log entries
sorted descending by timestamp and truncated to `limit`; entries with a
missing or blank timestamp or query, or an unparseable timestamp, are
skipped rather than fatal; no day-window filter is applied (the argument
7 at the call site is the limit, not a window).  The output length is
exactly the minimum of `limit` and the number of parseable entries, so
nothing but the limit ever drops an entry; every returned pair is a
parseable entry; and when the limit does not truncate, the output is a
permutation of all the parseable entries, however old their timestamps. -/
theorem C4_amended_recent_keywords (parseTs : String → Option Int)
    (entries : List KeywordEntry) (limit : Nat) :
    (get_recent_keywords parseTs entries limit).length =
      min limit (entries.filterMap (parse_log_entry parseTs)).length ∧
    List.Pairwise (fun a b : Int × String => b.1 ≤ a.1)
      (get_recent_keywords parseTs entries limit) ∧
    (∀ p ∈ get_recent_keywords parseTs entries limit,
      p ∈ entries.filterMap (parse_log_entry parseTs)) ∧
    ((entries.filterMap (parse_log_entry parseTs)).length ≤ limit →
      (get_recent_keywords parseTs entries limit).Perm
        (entries.filterMap (parse_log_entry parseTs))) := by
  simp only [get_recent_keywords]
  refine ⟨?_, ?_, ?_, ?_⟩
  · rw [List.length_take, List.length_mergeSort]
  · have hs := @List.sorted_mergeSort (Int × String)
      (fun a b => decide (b.1 ≤ a.1))
      (fun a b c hab hbc => by
        simp only [decide_eq_true_eq] at hab hbc ⊢
        omega)
      (fun a b => by
        simp only [Bool.or_eq_true, decide_eq_true_eq]
        omega)
      (entries.filterMap (parse_log_entry parseTs))
    refine List.Pairwise.imp ?_ (List.Pairwise.take hs)
    intro a b hab
    simpa using hab
  · intro p hp
    have hmem := List.mem_of_mem_take hp
    rwa [List.mem_mergeSort] at hmem
  · intro hle
    have hlen : ((entries.filterMap (parse_log_entry parseTs)).mergeSort
        (fun a b => decide (b.1 ≤ a.1))).length ≤ limit := by
      rw [List.length_mergeSort]
      exact hle
    rw [List.take_of_length_le hlen]
    exact List.mergeSort_perm _ _

/-- Witness for the amended C4 on a concrete log with one arbitrarily old
entry: the returned pair is the parseable entry, and with a
non-truncating limit the output is a permutation of all parseable
entries, so the old entry is returned. -/
theorem C4_amended_witness :
    (0, "q") ∈ ([⟨some "old", some "q"⟩] : List KeywordEntry).filterMap
      (parse_log_entry fixedParse) ∧
    (get_recent_keywords fixedParse [⟨some "old", some "q"⟩] 7).Perm
      (([⟨some "old", some "q"⟩] : List KeywordEntry).filterMap
        (parse_log_entry fixedParse)) :=
  ⟨(C4_amended_recent_keywords fixedParse [⟨some "old", some "q"⟩] 7).2.2.1 (0, "q")
      (by simp [get_recent_keywords, parse_log_entry, truthyStr, fixedParse]),
   (C4_amended_recent_keywords fixedParse [⟨some "old", some "q"⟩] 7).2.2.2 (by decide)⟩

/-- C8 counterexample: the string "PT5SX" is not in the compact duration
notation, yet it parses to 5 rather than 0 (the parser is best-effort
after the leading "PT"). -/
theorem C8_counterexample :
    parse_duration_iso8601 "PT5SX" = 5 ∧ (5 : Nat) ≠ 0 := by decide

/-- C8 (amended): the duration codec parses "PT1H2M3S" to 3723 seconds,
formats 3723 seconds as "1:02:03" and 45 seconds as "0:45"; a duration
string that does not start with "PT" parses to 0, while a malformed string
that does start with "PT" is parsed best-effort (not necessarily 0); the
parsed duration is always a non-negative integer. -/
theorem C8_amended_duration_codec :
    parse_duration_iso8601 "PT1H2M3S" = 3723 ∧
    format_duration_hms 3723 = "1:02:03" ∧
    format_duration_hms 45 = "0:45" ∧
    (∀ s : String, leadsWith "PT".data s.data = false → parse_duration_iso8601 s = 0) ∧
    (∀ s : String, 0 ≤ parse_duration_iso8601 s) := by
  refine ⟨by decide, by decide, by decide, ?_, fun s => Nat.zero_le _⟩
  intro s h
  unfold parse_duration_iso8601
  rw [if_pos (Or.inr h)]

/-- Witness for the amended C8: a timestamp-like string that does not start
with "PT" parses to 0. -/
theorem C8_amended_witness : parse_duration_iso8601 "1:02:03" = 0 :=
  C8_amended_duration_codec.2.2.2.1 "1:02:03" (by decide)

end FindKing

namespace FindKing

/-- Oracle on which every call returns nothing: the channel resolution
finds no channel and every page search returns an empty id page. -/
def emptyApi : SearchApi := ⟨fun _ => [], fun _ _ _ => ([], none), fun _ => []⟩

/-- C9: when the channel-resolution search resolves zero channels, the
channel-name search returns an empty record list with total cost exactly
100 units (the non-refundable resolution call); the breakdown shows 100
units of search.list and 0 units of videos.list, and no page search was
requested, so no detail-lookup call was issued. -/
theorem C9_channel_resolution_empty (api : SearchApi) (channel_name : String)
    (min_views : Nat) (duration_label : String) (max_fetch : Option Int)
    (h : api.channelSearch channel_name = []) :
    (search_videos_in_channel_by_name api channel_name min_views duration_label
        max_fetch).results = [] ∧
    (search_videos_in_channel_by_name api channel_name min_views duration_label
        max_fetch).cost = 100 ∧
    (search_videos_in_channel_by_name api channel_name min_views duration_label
        max_fetch).breakdown = ⟨100, 0⟩ ∧
    (search_videos_in_channel_by_name api channel_name min_views duration_label
        max_fetch).takes = [] := by
  simp [search_videos_in_channel_by_name, h]

/-- Witness for C9 at a concrete oracle resolving zero channels. -/
theorem C9_witness :
    (search_videos_in_channel_by_name emptyApi "nobody" 0 "전체" none).results = [] ∧
    (search_videos_in_channel_by_name emptyApi "nobody" 0 "전체" none).cost = 100 ∧
    (search_videos_in_channel_by_name emptyApi "nobody" 0 "전체" none).breakdown = ⟨100, 0⟩ ∧
    (search_videos_in_channel_by_name emptyApi "nobody" 0 "전체" none).takes = [] :=
  C9_channel_resolution_empty emptyApi "nobody" 0 "전체" none rfl

lemma takes_append_le {takes : List Nat} (k : Nat)
    (htakes : ∀ t ∈ takes, t ≤ 50) :
    ∀ t ∈ takes ++ [min 50 k], t ≤ 50 := by
  intro t ht
  rcases List.mem_append.mp ht with h1 | h1
  · exact htakes t h1
  · have : t = min 50 k := by simpa using h1
    exact this ▸ Nat.min_le_left 50 k

lemma fetch_loop_takes_le (api : SearchApi) (scope : Option String) (min_views : Nat)
    (duration_label : String) :
    ∀ (n max_fetch fetched : Nat) (next_token : Option String) (acc : List RawResult)
      (cost : Nat) (bd : Breakdown) (takes : List Nat),
      max_fetch - fetched ≤ n →
      (∀ t ∈ takes, t ≤ 50) →
      ∀ t ∈ (fetch_loop api scope min_views duration_label max_fetch fetched next_token
        acc cost bd takes).takes, t ≤ 50 := by
  intro n
  induction n with
  | zero =>
    intro max_fetch fetched tok acc cost bd takes hn htakes t ht
    rw [fetch_loop, dif_neg (by omega : ¬ fetched < max_fetch)] at ht
    exact htakes t ht
  | succ n ih =>
    intro max_fetch fetched tok acc cost bd takes hn htakes t ht
    by_cases h : fetched < max_fetch
    · rw [fetch_loop] at ht
      simp only [dif_pos h] at ht
      by_cases hpage : (api.searchPage scope tok (min 50 (max_fetch - fetched))).1 = []
      · rw [dif_pos hpage] at ht
        exact takes_append_le _ htakes t ht
      · rw [dif_neg hpage] at ht
        rcases hsome : (api.searchPage scope tok (min 50 (max_fetch - fetched))).2 with _ | s
        · rw [hsome] at ht
          exact takes_append_le _ htakes t ht
        · rw [hsome] at ht
          have hlen : 0 < (api.searchPage scope tok (min 50 (max_fetch - fetched))).1.length :=
            List.length_pos.mpr hpage
          exact ih max_fetch
            (fetched + (api.searchPage scope tok (min 50 (max_fetch - fetched))).1.length)
            (some s) _ _ _ _ (by omega) (takes_append_le _ htakes) t ht
    · rw [fetch_loop, dif_neg h] at ht
      exact htakes t ht

lemma clamp_fetch_bounds (max_fetch : Option Int) :
    1 ≤ clamp_fetch max_fetch ∧ clamp_fetch max_fetch ≤ 5000 := by
  rcases max_fetch with _ | x
  · decide
  · simp only [clamp_fetch]
    by_cases hx : x = 0
    · subst hx
      decide
    · rw [if_neg hx, max_def, min_def]
      split_ifs <;> omega

/-- C10: both paginated video-search operations clamp the caller-supplied
fetch ceiling into the range [1, 5000] before the page loop (a falsy
ceiling, `None` or 0, is first replaced by 100), and every search.list
page call either operation issues requests at most 50 results. -/
theorem C10_fetch_ceiling_clamped (api : SearchApi) (min_views : Nat)
    (duration_label : String) (max_fetch : Option Int) :
    (1 ≤ clamp_fetch max_fetch ∧ clamp_fetch max_fetch ≤ 5000) ∧
    (∀ t ∈ (search_videos api min_views duration_label max_fetch).takes, t ≤ 50) ∧
    (∀ channel_name : String,
      ∀ t ∈ (search_videos_in_channel_by_name api channel_name min_views duration_label
        max_fetch).takes, t ≤ 50) := by
  refine ⟨clamp_fetch_bounds max_fetch, ?_, ?_⟩
  · intro t ht
    exact fetch_loop_takes_le api none min_views duration_label (clamp_fetch max_fetch)
      (clamp_fetch max_fetch) 0 none [] 0 ⟨0, 0⟩ [] (by omega) (by simp) t ht
  · intro channel_name t
    simp only [search_videos_in_channel_by_name]
    by_cases h : api.channelSearch channel_name = []
    · rw [dif_pos h]
      intro ht
      simp at ht
    · rw [dif_neg h]
      intro ht
      exact fetch_loop_takes_le api _ min_views duration_label (clamp_fetch max_fetch)
        (clamp_fetch max_fetch) 0 none [] 100 ⟨100, 0⟩ [] (by omega) (by simp) t ht

lemma search_videos_emptyApi :
    search_videos emptyApi 0 "전체" none = ⟨[], 100, ⟨100, 0⟩, [50]⟩ := by
  rw [search_videos, fetch_loop]
  simp [emptyApi, clamp_fetch]

/-- Witness for C10 at a concrete oracle: the single page call of a
general search with the default ceiling requests 50 results, and the
clamped ceiling is at least 1. -/
theorem C10_witness : (50 : Nat) ≤ 50 ∧ 1 ≤ clamp_fetch none :=
  ⟨(C10_fetch_ceiling_clamped emptyApi 0 "전체" none).2.1 50
      (by rw [search_videos_emptyApi]; simp),
   (C10_fetch_ceiling_clamped emptyApi 0 "전체" none).1.1⟩

end FindKing
